import Mathlib

/-!
# Verification of the DS3232 register codec and command layer

A shallow embedding of `src/RTC_DS3232.cpp` (the register-level driver for a
DS3232 real-time clock). The chip's register file is modelled as a function
from addresses to byte values, and each driver operation becomes a pure
function on that state. Helper code of the repository that lives outside the
translated source file (the BCD helpers, the `DateTime` value type, the SQW
mode enumeration and the single-byte register primitives declared in the
library header) is modelled from the specification document and marked as
such in its doc comment.
-/

namespace RTClib

/-! ## Register addresses (the `#define` constants of the source) -/

def DS3232_TIME : Nat := 0x00

def DS3232_ALARM1 : Nat := 0x07

def DS3232_ALARM2 : Nat := 0x0B

def DS3232_CONTROL : Nat := 0x0E

def DS3232_STATUSREG : Nat := 0x0F

def DS3232_TEMPERATUREREG : Nat := 0x11

def DS3232_NVRAM : Nat := 0x14

/-! ## BCD helpers and the time-value collaborator -/

/-- Modelled from the spec: `bin2bcd(n)` converts a binary integer 0-99 to
packed BCD: `((n/10)<<4) | (n%10)`. (The helper lives in the library core,
outside the translated source file.) -/
def bin2bcd (n : Nat) : Nat := ((n / 10) <<< 4) ||| (n % 10)

/-- Modelled from the spec: `bcd2bin(b)` is the inverse conversion
`((b>>4)*10) + (b & 0x0F)`. -/
def bcd2bin (b : Nat) : Nat := (b >>> 4) * 10 + (b &&& 0x0F)

/-- Modelled from the spec: the external wall-clock time value collaborator,
with fields year 2000-2099, month 1-12, day 1-31, hour 0-23, minute 0-59,
second 0-59; the day-of-week is not stored but derived from the calendar
date (see `DateTime.dayOfTheWeek`). -/
structure DateTime where
  year : Nat
  month : Nat
  day : Nat
  hour : Nat
  minute : Nat
  second : Nat
deriving DecidableEq, Repr

/-- Modelled from the spec: day counts of the calendar months, used to
derive the day of the week from a calendar date. -/
def daysInMonth (m : Nat) : Nat :=
  [31, 28, 31, 30, 31, 30, 31, 31, 30, 31, 30, 31].getD (m - 1) 0

/-- Modelled from the spec: days since 2000-01-01 for a date in 2000-2099
(years divisible by 4 in this window are leap years). -/
def date2days (y m d : Nat) : Nat :=
  let yOff := if 2000 ≤ y then y - 2000 else y
  let days := d + ((List.range (m - 1)).map (fun i => daysInMonth (i + 1))).sum
  let days := if 2 < m ∧ yOff % 4 = 0 then days + 1 else days
  days + 365 * yOff + (yOff + 3) / 4 - 1

/-- Modelled from the spec: the time-value collaborator derives the day of
the week from the calendar date; 1 = Sunday .. 7 = Saturday
(2000-01-01 was a Saturday). -/
def DateTime.dayOfTheWeek (dt : DateTime) : Nat :=
  (date2days dt.year dt.month dt.day + 6) % 7 + 1

/-- Modelled from the spec: the day-of-week mapping between the time value's
convention and the chip's 1-7 register encoding; both are 1-based
Sunday-start, so the table is the identity. -/
def dowToDS3232 (d : Nat) : Nat := d

/-! ## The register file and the bus primitives -/

/-- The chip's register state: a byte value for every register address. -/
def RegFile : Type := Nat → Nat

/-- Modelled from the spec: `read_register` is a single-byte
write-then-read transaction returning the byte at the given address. -/
def read_register (s : RegFile) (a : Nat) : Nat := s a

/-- Modelled from the spec: `write_register` is a single-byte write
transaction; the value is a `uint8_t`, hence reduced mod 256. -/
def write_register (s : RegFile) (a : Nat) (v : Nat) : RegFile :=
  fun x => if x = a then v % 256 else s x

/-- A multi-byte bus write: the source passes a buffer whose first byte is
the register address and whose remaining bytes land in consecutive
registers. -/
def writeBytes (s : RegFile) (a : Nat) : List Nat → RegFile
  | [] => s
  | v :: vs => writeBytes (write_register s a v) (a + 1) vs

/-! ## Driver operations (translated from `src/RTC_DS3232.cpp`) -/

/-- Source `RTC_DS3232::lostPower`: `read_register(DS3232_STATUSREG) >> 7`,
converted to `bool` (nonzero means true). -/
def lostPower (s : RegFile) : Bool :=
  read_register s DS3232_STATUSREG >>> 7 != 0

/-- Source `RTC_DS3232::adjust`: one 8-byte transaction (address byte `DS3232_TIME`
followed by the 7 BCD-encoded time bytes), then read the status register,
clear bit 7 (OSF, `statreg &= ~0x80`) and write it back. -/
def adjust (s : RegFile) (dt : DateTime) : RegFile :=
  let s1 := writeBytes s DS3232_TIME
    [bin2bcd dt.second,
     bin2bcd dt.minute,
     bin2bcd dt.hour,
     bin2bcd (dowToDS3232 dt.dayOfTheWeek),
     bin2bcd dt.day,
     bin2bcd dt.month,
     bin2bcd (dt.year - 2000)]
  write_register s1 DS3232_STATUSREG (read_register s1 DS3232_STATUSREG &&& 0x7F)

/-- Source `RTC_DS3232::now`: read 7 consecutive bytes from register 0 and decode
them. The source builds
`DateTime(bcd2bin(buffer[6]) + 2000U, bcd2bin(buffer[5] & 0x7F),
bcd2bin(buffer[4]), bcd2bin(buffer[2]), bcd2bin(buffer[1]),
bcd2bin(buffer[0] & 0x7F))` with constructor order
(year, month, day, hour, minute, second). -/
def now (s : RegFile) : DateTime :=
  { year := bcd2bin (s 6) + 2000
    month := bcd2bin (s 5 &&& 0x7F)
    day := bcd2bin (s 4)
    hour := bcd2bin (s 2)
    minute := bcd2bin (s 1)
    second := bcd2bin (s 0 &&& 0x7F) }

/-- Modelled from the spec: the SQW pin mode variants (off, 1Hz, 1.024kHz,
4.096kHz, 8.192kHz, interrupt-mode); the enumeration lives in the library
header, outside the translated source. -/
inductive Ds3232SqwPinMode
  | off
  | squareWave1Hz
  | squareWave1kHz
  | squareWave4kHz
  | squareWave8kHz
  | interrupt
deriving DecidableEq, Fintype, Repr

/-- Modelled from the spec: the control-register bit patterns of the SQW
modes. The frequency selections use bits 3-4, the off sentinel is 0x1C
(interrupt-control bit plus both frequency bits) and the interrupt mode is
the interrupt-control bit 0x04 alone. -/
def modeBits : Ds3232SqwPinMode → Nat
  | .off => 0x1C
  | .squareWave1Hz => 0x00
  | .squareWave1kHz => 0x08
  | .squareWave4kHz => 0x10
  | .squareWave8kHz => 0x18
  | .interrupt => 0x04

/-- Source `RTC_DS3232::readSqwPinMode`: mask the control register with 0x1C; if
bit 2 is set report the off sentinel regardless of the frequency bits. -/
def readSqwPinMode (s : RegFile) : Nat :=
  let mode := read_register s DS3232_CONTROL &&& 0x1C
  if mode &&& 0x04 ≠ 0 then modeBits Ds3232SqwPinMode.off else mode

/-- Source `RTC_DS3232::writeSqwPinMode`: clear bit 2 (`ctrl &= ~0x04`) and bits
3-4 (`ctrl &= ~0x18`) of the control register, then OR in the new mode's
bit pattern. -/
def writeSqwPinMode (s : RegFile) (mode : Ds3232SqwPinMode) : RegFile :=
  let ctrl := read_register s DS3232_CONTROL
  let ctrl := ctrl &&& 0xFB
  let ctrl := ctrl &&& 0xE7
  write_register s DS3232_CONTROL (ctrl ||| modeBits mode)

/-- Source `RTC_DS3232::getTemperature`: read two bytes starting at the
temperature register and return `(float)buffer[0] + (buffer[1] >> 6) * 0.25f`.
`buffer[0]` is a `uint8_t`, so the cast is unsigned. Every value that can
arise here is an integer multiple of 1/4 below 2^9 and hence exactly
representable in single-precision floating point, so the rationals model
the float computation exactly. -/
def getTemperature (s : RegFile) : ℚ :=
  (read_register s DS3232_TEMPERATUREREG : ℚ) +
    ((read_register s (DS3232_TEMPERATUREREG + 1) >>> 6 : Nat) : ℚ) * (1 / 4)

/-- The temperature decode as the claim words it: the first byte
interpreted as a SIGNED 8-bit integer (two's complement, as the chip
documents the register) plus the top two bits of the second byte times
0.25. Used only for comparison with the code's decode. -/
def temperatureClaimed (s : RegFile) : ℚ :=
  (if s DS3232_TEMPERATUREREG < 128
    then (s DS3232_TEMPERATUREREG : ℚ)
    else (s DS3232_TEMPERATUREREG : ℚ) - 256) +
    ((s (DS3232_TEMPERATUREREG + 1) >>> 6 : Nat) : ℚ) * (1 / 4)

/-- Source `RTC_DS3232::setAlarm1`: if control bit 2 is clear return false without
touching the bus; otherwise build the A1M1..A1M4 and DY/DT bits from the
mode, write the 4 data bytes at the alarm-1 base in one transaction, and
set control bit 0 (A1IE) on the previously read control value. -/
def setAlarm1 (s : RegFile) (dt : DateTime) (alarm_mode : Nat) : Bool × RegFile :=
  let ctrl := read_register s DS3232_CONTROL
  if ctrl &&& 0x04 = 0 then (false, s)
  else
    let A1M1 := (alarm_mode &&& 0x01) <<< 7
    let A1M2 := (alarm_mode &&& 0x02) <<< 6
    let A1M3 := (alarm_mode &&& 0x04) <<< 5
    let A1M4 := (alarm_mode &&& 0x08) <<< 4
    let DY_DT := (alarm_mode &&& 0x10) <<< 2
    let day := if DY_DT ≠ 0 then dowToDS3232 dt.dayOfTheWeek else dt.day
    let s1 := writeBytes s DS3232_ALARM1
      [bin2bcd dt.second ||| A1M1,
       bin2bcd dt.minute ||| A1M2,
       bin2bcd dt.hour ||| A1M3,
       bin2bcd day ||| A1M4 ||| DY_DT]
    (true, write_register s1 DS3232_CONTROL (ctrl ||| 0x01))

/-- Source `RTC_DS3232::setAlarm2`: if control bit 2 is clear return false without
touching the bus; otherwise build the A2M2..A2M4 and DY/DT bits from the
mode, write the 3 data bytes at the alarm-2 base in one transaction, and
set control bit 1 (A2IE) on the previously read control value. -/
def setAlarm2 (s : RegFile) (dt : DateTime) (alarm_mode : Nat) : Bool × RegFile :=
  let ctrl := read_register s DS3232_CONTROL
  if ctrl &&& 0x04 = 0 then (false, s)
  else
    let A2M2 := (alarm_mode &&& 0x01) <<< 7
    let A2M3 := (alarm_mode &&& 0x02) <<< 6
    let A2M4 := (alarm_mode &&& 0x04) <<< 5
    let DY_DT := (alarm_mode &&& 0x08) <<< 3
    let day := if DY_DT ≠ 0 then dowToDS3232 dt.dayOfTheWeek else dt.day
    let s1 := writeBytes s DS3232_ALARM2
      [bin2bcd dt.minute ||| A2M2,
       bin2bcd dt.hour ||| A2M3,
       bin2bcd day ||| A2M4 ||| DY_DT]
    (true, write_register s1 DS3232_CONTROL (ctrl ||| 0x02))

/-- Source `RTC_DS3232::clearOSF`: read the status register, clear bit 7
(`statreg &= ~0x80`) and write it back. -/
def clearOSF (s : RegFile) : RegFile :=
  write_register s DS3232_STATUSREG (read_register s DS3232_STATUSREG &&& 0x7F)

/-- Source `RTC_DS3232::enableEOSC`: clear control-register bit 7
(`status &= ~(0x1 << 0x07)`). -/
def enableEOSC (s : RegFile) : RegFile :=
  write_register s DS3232_CONTROL (read_register s DS3232_CONTROL &&& 0x7F)

/-- Source `RTC_DS3232::disableEOSC`: set control-register bit 7
(`status |= (0x1 << 0x07)`). -/
def disableEOSC (s : RegFile) : RegFile :=
  write_register s DS3232_CONTROL (read_register s DS3232_CONTROL ||| 0x80)

/-- Source `RTC_DS3232::isEnabledEOSC`:
`(read_register(DS3232_CONTROL) >> 0x07) & 0x01`, converted to `bool`. -/
def isEnabledEOSC (s : RegFile) : Bool :=
  (read_register s DS3232_CONTROL >>> 7) &&& 1 != 0

/-- Source `uint8_t addrByte = DS3232_NVRAM + address`: the effective register
address of an NVRAM access, computed in 8-bit unsigned arithmetic. -/
def nvramAddrByte (address : Nat) : Nat := (DS3232_NVRAM + address) % 256

/-- Source `RTC_DS3232::readnvram(buf, size, address)`: a write-then-read
transaction returning `size` consecutive bytes starting at the effective
NVRAM address. -/
def readnvramBuf (s : RegFile) (size address : Nat) : List Nat :=
  (List.range size).map fun i => read_register s (nvramAddrByte address + i)

/-- Source `RTC_DS3232::writenvram(address, buf, size)`: writes the buffer at the
effective NVRAM address in one transaction. -/
def writenvramBuf (s : RegFile) (address : Nat) (buf : List Nat) : RegFile :=
  writeBytes s (nvramAddrByte address) buf

/-- The single-byte `readnvram` overload: reads one byte through the buffer
form. -/
def readnvram1 (s : RegFile) (address : Nat) : Nat :=
  (readnvramBuf s 1 address).getD 0 0

/-- The single-byte `writenvram` overload: writes one byte through the
buffer form. -/
def writenvram1 (s : RegFile) (address data : Nat) : RegFile :=
  writenvramBuf s address [data]

/-! ## Concrete register images and values used by witnesses and
counterexamples -/

/-- The all-zero register image (shared by several witnesses). -/
def zeroImage : RegFile := fun _ => 0

/-- A concrete valid time value (2026-10-11 12:34:56). -/
def sampleTime : DateTime :=
  { year := 2026, month := 10, day := 11, hour := 12, minute := 34, second := 56 }

/-- The decoder exactly as claim C1 words it (second and minute masked,
hour, day and month unmasked): used only to compare against `now`. -/
def nowClaimC1 (s : RegFile) : DateTime :=
  { year := bcd2bin (s 6) + 2000
    month := bcd2bin (s 5)
    day := bcd2bin (s 4)
    hour := bcd2bin (s 2)
    minute := bcd2bin (s 1 &&& 0x7F)
    second := bcd2bin (s 0 &&& 0x7F) }

/-- A 7-byte register image with bit 7 set in the minute byte and in the
month byte. -/
def imageC1 : RegFile := fun a => if a = 1 then 0x80 else if a = 5 then 0x81 else 0

/-- An image that differs from `zeroImage` only in the day-of-week byte. -/
def imageC10a : RegFile := fun a => if a = 3 then 5 else 0

/-- A status-register image with the OSF bit (and bits 0 and 2) set. -/
def statusImage : RegFile := fun a => if a = DS3232_STATUSREG then 0x85 else 0

/-- A control-register image with bits 1, 3, 5 and 7 set. -/
def ctrlImage : RegFile := fun a => if a = DS3232_CONTROL then 0xAA else 0

/-- A control-register image with bit 2 (interrupt-control enable) set. -/
def sqwImage : RegFile := fun a => if a = DS3232_CONTROL then 0x05 else 0

/-- Temperature register bytes (23, 0b01000000): +23.25 degrees C. -/
def tempImagePos : RegFile :=
  fun a => if a = DS3232_TEMPERATUREREG then 23
    else if a = DS3232_TEMPERATUREREG + 1 then 0x40 else 0

/-- Temperature register bytes (0xFF, 0b11000000): -0.25 degrees C in the
chip's two's-complement encoding. -/
def tempImageNeg : RegFile :=
  fun a => if a = DS3232_TEMPERATUREREG then 0xFF
    else if a = DS3232_TEMPERATUREREG + 1 then 0xC0 else 0

/-- A control-register image with bit 2 set (alarm writes permitted). -/
def alarmCtrlImage : RegFile := fun a => if a = DS3232_CONTROL then 0x04 else 0

end RTClib

namespace RTClib

set_option maxRecDepth 100000

/-! ## Shared bounded-range lemmas -/

lemma bcd_roundtrip : ∀ n < 100, bcd2bin (bin2bcd n) = n := by decide

lemma bcd_roundtrip_masked : ∀ n < 80, bcd2bin (bin2bcd n &&& 0x7F) = n := by decide

lemma bin2bcd_lt : ∀ n < 100, bin2bcd n < 256 := by decide

lemma dayOfTheWeek_le (dt : DateTime) : dt.dayOfTheWeek ≤ 7 := by
  unfold DateTime.dayOfTheWeek
  omega

lemma status_bit7_facts : ∀ c < 256,
    (((c >>> 7 != 0) = true) ↔ Nat.testBit c 7 = true) ∧
    ((((c &&& 0x7F) % 256) >>> 7 != 0) = false) ∧
    (∀ i < 7, Nat.testBit ((c &&& 0x7F) % 256) i = Nat.testBit c i) := by decide

lemma eosc_bit_facts : ∀ c < 256,
    Nat.testBit ((c &&& 0x7F) % 256) 7 = false ∧
    (∀ i < 7, Nat.testBit ((c &&& 0x7F) % 256) i = Nat.testBit c i) ∧
    Nat.testBit ((c ||| 0x80) % 256) 7 = true ∧
    (∀ i < 7, Nat.testBit ((c ||| 0x80) % 256) i = Nat.testBit c i) ∧
    (((c >>> 7) &&& 1 != 0) = Nat.testBit c 7) := by decide

/-! ## C7: BCD round-trip -/

/-- C7: for every n in [0,99], `bcd2bin (bin2bcd n) = n`: the
binary-to-packed-BCD conversion and its inverse round-trip exactly on that
range. -/
theorem C7_bcd_bin_roundtrip : ∀ n : Nat, n ≤ 99 → bcd2bin (bin2bcd n) = n := by
  intro n h
  exact bcd_roundtrip n (by omega)

/-- Witness for C7 at n = 59. -/
theorem C7_bcd_bin_roundtrip_witness : bcd2bin (bin2bcd 59) = 59 :=
  C7_bcd_bin_roundtrip 59 (by decide)

/-! ## C1: the decode masks of `now`

The claim asserts that the minute byte is masked with 0x7F and the month
byte is decoded unmasked. The source does the opposite: it decodes
`bcd2bin(buffer[1])` for the minute and `bcd2bin(buffer[5] & 0x7F)` for the
month (bit 7 of the month register is the century bit). -/

/-- C1 counterexample: on the image with minute byte 0x80 and month byte
0x81, the code decodes minute 80 (no mask) and month 1 (masked), while the
claim's formula predicts minute 0 and month 81. -/
theorem C1_now_decode_counterexample :
    now imageC1 ≠ nowClaimC1 imageC1 ∧
    (now imageC1).minute = 80 ∧ (nowClaimC1 imageC1).minute = 0 ∧
    (now imageC1).month = 1 ∧ (nowClaimC1 imageC1).month = 81 := by
  refine ⟨by decide, rfl, rfl, rfl, rfl⟩

/-- C1 amended: `now` masks off bit 7 of the seconds byte and of the month
byte (the century bit) before BCD-decoding them, while the minute, hour and
day bytes are BCD-decoded directly without masking, and the year is
`bcd2bin` of the year byte plus 2000. -/
theorem C1_now_decode_amended (s : RegFile) :
    (now s).second = bcd2bin (s 0 &&& 0x7F) ∧
    (now s).minute = bcd2bin (s 1) ∧
    (now s).hour = bcd2bin (s 2) ∧
    (now s).day = bcd2bin (s 4) ∧
    (now s).month = bcd2bin (s 5 &&& 0x7F) ∧
    (now s).year = bcd2bin (s 6) + 2000 :=
  ⟨rfl, rfl, rfl, rfl, rfl, rfl⟩

/-! ## C10: `now` never uses the day-of-week register byte -/

/-- C10: the value returned by `now` depends only on the bytes at addresses
0, 1, 2, 4, 5 and 6 of the register image — the day-of-week byte at address
3 is never used — and therefore the day-of-week the caller observes is the
one the time-value collaborator derives from the calendar date. -/
theorem C10_now_ignores_dow_byte (s t : RegFile)
    (h0 : s 0 = t 0) (h1 : s 1 = t 1) (h2 : s 2 = t 2)
    (h4 : s 4 = t 4) (h5 : s 5 = t 5) (h6 : s 6 = t 6) :
    now s = now t ∧ (now s).dayOfTheWeek = (now t).dayOfTheWeek := by
  have h : now s = now t := by simp only [now, h0, h1, h2, h4, h5, h6]
  exact ⟨h, by rw [h]⟩

/-- Witness for C10: two images differing only at address 3 decode to the
same time value. -/
theorem C10_now_ignores_dow_byte_witness :
    now imageC10a = now zeroImage ∧
    (now imageC10a).dayOfTheWeek = (now zeroImage).dayOfTheWeek :=
  C10_now_ignores_dow_byte imageC10a zeroImage rfl rfl rfl rfl rfl rfl

/-! ## C4: adjust/now round-trip -/

/-- C4: for every valid wall-clock time value, encoding through `adjust` and
decoding through `now` returns the same value; all six date/time fields and
the (date-derived) day-of-week round-trip exactly. -/
theorem C4_adjust_now_roundtrip (s : RegFile) (t : DateTime)
    (hy1 : 2000 ≤ t.year) (hy2 : t.year ≤ 2099) (hmo : t.month ≤ 12)
    (hd : t.day ≤ 31) (hh : t.hour ≤ 23) (hmi : t.minute ≤ 59)
    (hsec : t.second ≤ 59) :
    now (adjust s t) = t ∧ (now (adjust s t)).dayOfTheWeek = t.dayOfTheWeek := by
  have e0 : (adjust s t) 0 = bin2bcd t.second % 256 := rfl
  have e1 : (adjust s t) 1 = bin2bcd t.minute % 256 := rfl
  have e2 : (adjust s t) 2 = bin2bcd t.hour % 256 := rfl
  have e4 : (adjust s t) 4 = bin2bcd t.day % 256 := rfl
  have e5 : (adjust s t) 5 = bin2bcd t.month % 256 := rfl
  have e6 : (adjust s t) 6 = bin2bcd (t.year - 2000) % 256 := rfl
  have key : now (adjust s t) = t := by
    obtain ⟨y, mo, d, hr, mi, se⟩ := t
    simp only [DateTime.year, DateTime.month, DateTime.day, DateTime.hour,
      DateTime.minute, DateTime.second] at *
    simp only [now, e0, e1, e2, e4, e5, e6, DateTime.mk.injEq]
    refine ⟨?_, ?_, ?_, ?_, ?_, ?_⟩
    · rw [Nat.mod_eq_of_lt (bin2bcd_lt _ (by omega)),
        bcd_roundtrip _ (by omega)]
      omega
    · rw [Nat.mod_eq_of_lt (bin2bcd_lt _ (by omega))]
      exact bcd_roundtrip_masked mo (by omega)
    · rw [Nat.mod_eq_of_lt (bin2bcd_lt _ (by omega))]
      exact bcd_roundtrip d (by omega)
    · rw [Nat.mod_eq_of_lt (bin2bcd_lt _ (by omega))]
      exact bcd_roundtrip hr (by omega)
    · rw [Nat.mod_eq_of_lt (bin2bcd_lt _ (by omega))]
      exact bcd_roundtrip mi (by omega)
    · rw [Nat.mod_eq_of_lt (bin2bcd_lt _ (by omega))]
      exact bcd_roundtrip_masked se (by omega)
  exact ⟨key, by rw [key]⟩

/-- Witness for C4 at a concrete valid time value and the all-zero image. -/
theorem C4_adjust_now_roundtrip_witness :
    now (adjust zeroImage sampleTime) = sampleTime ∧
    (now (adjust zeroImage sampleTime)).dayOfTheWeek = sampleTime.dayOfTheWeek :=
  C4_adjust_now_roundtrip zeroImage sampleTime (by decide) (by decide) (by decide)
    (by decide) (by decide) (by decide) (by decide)

/-! ## C6: lostPower and the Oscillator Stop Flag -/

/-- C6: `lostPower` is true exactly when bit 7 of the status register is
set; after `clearOSF` and after `adjust` it is false, and both operations
leave status bits 0-6 unchanged. -/
theorem C6_lostPower_osf (s : RegFile) (dt : DateTime)
    (h : s DS3232_STATUSREG < 256) :
    (lostPower s = true ↔ Nat.testBit (s DS3232_STATUSREG) 7 = true) ∧
    lostPower (clearOSF s) = false ∧
    lostPower (adjust s dt) = false ∧
    (∀ i < 7, Nat.testBit (clearOSF s DS3232_STATUSREG) i =
      Nat.testBit (s DS3232_STATUSREG) i) ∧
    (∀ i < 7, Nat.testBit (adjust s dt DS3232_STATUSREG) i =
      Nat.testBit (s DS3232_STATUSREG) i) := by
  have ec : clearOSF s DS3232_STATUSREG = (s DS3232_STATUSREG &&& 0x7F) % 256 := rfl
  have ea : adjust s dt DS3232_STATUSREG = (s DS3232_STATUSREG &&& 0x7F) % 256 := rfl
  have key := status_bit7_facts (s DS3232_STATUSREG) h
  refine ⟨key.1, ?_, ?_, ?_, ?_⟩
  · show (clearOSF s DS3232_STATUSREG >>> 7 != 0) = false
    rw [ec]
    exact key.2.1
  · show (adjust s dt DS3232_STATUSREG >>> 7 != 0) = false
    rw [ea]
    exact key.2.1
  · intro i hi
    rw [ec]
    exact key.2.2 i hi
  · intro i hi
    rw [ea]
    exact key.2.2 i hi

/-- Witness for C6 on the image with status byte 0x85. -/
theorem C6_lostPower_osf_witness :
    lostPower statusImage = true ∧
    lostPower (clearOSF statusImage) = false ∧
    lostPower (adjust statusImage sampleTime) = false := by
  have key := C6_lostPower_osf statusImage sampleTime (by decide)
  exact ⟨key.1.mpr (by decide), key.2.1, key.2.2.1⟩

/-! ## C8: EOSC inverted-logic bit 7 of the control register -/

/-- C8: `enableEOSC` clears control bit 7, `disableEOSC` sets it,
`isEnabledEOSC` reads it; the other control bits (and all other registers)
are untouched. -/
theorem C8_eosc_control_bit7 (s : RegFile) (h : s DS3232_CONTROL < 256) :
    Nat.testBit (enableEOSC s DS3232_CONTROL) 7 = false ∧
    (∀ i < 7, Nat.testBit (enableEOSC s DS3232_CONTROL) i =
      Nat.testBit (s DS3232_CONTROL) i) ∧
    (∀ a, a ≠ DS3232_CONTROL → enableEOSC s a = s a) ∧
    Nat.testBit (disableEOSC s DS3232_CONTROL) 7 = true ∧
    (∀ i < 7, Nat.testBit (disableEOSC s DS3232_CONTROL) i =
      Nat.testBit (s DS3232_CONTROL) i) ∧
    (∀ a, a ≠ DS3232_CONTROL → disableEOSC s a = s a) ∧
    isEnabledEOSC s = Nat.testBit (s DS3232_CONTROL) 7 := by
  have ee : enableEOSC s DS3232_CONTROL = (s DS3232_CONTROL &&& 0x7F) % 256 := rfl
  have ed : disableEOSC s DS3232_CONTROL = (s DS3232_CONTROL ||| 0x80) % 256 := rfl
  have key := eosc_bit_facts (s DS3232_CONTROL) h
  refine ⟨?_, ?_, ?_, ?_, ?_, ?_, ?_⟩
  · rw [ee]
    exact key.1
  · intro i hi
    rw [ee]
    exact key.2.1 i hi
  · intro a ha
    simp only [enableEOSC, write_register, read_register]
    exact if_neg ha
  · rw [ed]
    exact key.2.2.1
  · intro i hi
    rw [ed]
    exact key.2.2.2.1 i hi
  · intro a ha
    simp only [disableEOSC, write_register, read_register]
    exact if_neg ha
  · exact key.2.2.2.2

/-- Witness for C8 on the image with control byte 0xAA. -/
theorem C8_eosc_control_bit7_witness :
    isEnabledEOSC ctrlImage = true ∧
    Nat.testBit (enableEOSC ctrlImage DS3232_CONTROL) 7 = false ∧
    Nat.testBit (disableEOSC ctrlImage DS3232_CONTROL) 7 = true ∧
    Nat.testBit (enableEOSC ctrlImage DS3232_CONTROL) 1 = true ∧
    disableEOSC ctrlImage 0 = ctrlImage 0 := by
  have key := C8_eosc_control_bit7 ctrlImage (by decide)
  refine ⟨?_, key.1, key.2.2.2.1, ?_, ?_⟩
  · rw [key.2.2.2.2.2.2]
    decide
  · rw [key.2.1 1 (by decide)]
    decide
  · exact key.2.2.2.2.2.1 0 (by decide)

/-! ## C9: NVRAM effective address wraps mod 256 -/

/-- C9: the NVRAM operations compute the effective register address as
`(0x14 + address) % 256` with no bounds check, so every address at or above
236 silently wraps into the non-NVRAM register range below 0x14; address
236 targets the seconds register 0x00. -/
theorem C9_nvram_address_wrap (s : RegFile) (a v : Nat)
    (h1 : 236 ≤ a) (h2 : a < 256) :
    nvramAddrByte a = a - 236 ∧
    a - 236 < DS3232_NVRAM ∧
    readnvram1 s a = read_register s (a - 236) ∧
    nvramAddrByte 236 = 0 ∧
    readnvram1 s 236 = read_register s 0 ∧
    writenvram1 s 236 v 0 = v % 256 := by
  have e : nvramAddrByte a = a - 236 := by
    unfold nvramAddrByte DS3232_NVRAM
    omega
  have e1 : readnvram1 s a = read_register s (nvramAddrByte a + 0) := rfl
  refine ⟨e, by unfold DS3232_NVRAM; omega, ?_, rfl, rfl, rfl⟩
  rw [e1, e, Nat.add_zero]

/-- Witness for C9 at address 236: the access lands on register 0x00. -/
theorem C9_nvram_address_wrap_witness :
    nvramAddrByte 236 = 0 ∧
    readnvram1 zeroImage 236 = read_register zeroImage 0 ∧
    writenvram1 zeroImage 236 300 0 = 300 % 256 := by
  have key := C9_nvram_address_wrap zeroImage 236 300 (by decide) (by decide)
  exact ⟨key.2.2.2.1, key.2.2.2.2.1, key.2.2.2.2.2⟩

/-! ## C5: SQW pin mode write/read round-trip and bit-2 precedence -/

lemma sqw_facts : ∀ c < 256, ∀ m : Ds3232SqwPinMode,
    ((if ((((c &&& 0xFB) &&& 0xE7) ||| modeBits m) % 256 &&& 0x1C) &&& 0x04 ≠ 0
      then modeBits Ds3232SqwPinMode.off
      else (((c &&& 0xFB) &&& 0xE7) ||| modeBits m) % 256 &&& 0x1C)
     = (if modeBits m &&& 0x04 ≠ 0 then modeBits Ds3232SqwPinMode.off
        else modeBits m)) ∧
    (c &&& 0x04 ≠ 0 →
      (if (c &&& 0x1C) &&& 0x04 ≠ 0 then modeBits Ds3232SqwPinMode.off
       else c &&& 0x1C) = modeBits Ds3232SqwPinMode.off) := by decide

/-- C5: writing any SQW pin mode and reading it back returns the same mode,
except for modes whose bit pattern has bit 2 set, which read back as the
off sentinel; and on any control value with bit 2 set the read reports off
regardless of the frequency bits. -/
theorem C5_sqw_mode_roundtrip (s : RegFile) (m : Ds3232SqwPinMode)
    (h : s DS3232_CONTROL < 256) :
    readSqwPinMode (writeSqwPinMode s m) =
      (if modeBits m &&& 0x04 ≠ 0 then modeBits Ds3232SqwPinMode.off
       else modeBits m) ∧
    (s DS3232_CONTROL &&& 0x04 ≠ 0 →
      readSqwPinMode s = modeBits Ds3232SqwPinMode.off) := by
  have e1 : readSqwPinMode (writeSqwPinMode s m) =
      (if ((((s DS3232_CONTROL &&& 0xFB) &&& 0xE7) ||| modeBits m) % 256 &&& 0x1C)
          &&& 0x04 ≠ 0
       then modeBits Ds3232SqwPinMode.off
       else (((s DS3232_CONTROL &&& 0xFB) &&& 0xE7) ||| modeBits m) % 256 &&& 0x1C) :=
    rfl
  have e2 : readSqwPinMode s =
      (if (s DS3232_CONTROL &&& 0x1C) &&& 0x04 ≠ 0
       then modeBits Ds3232SqwPinMode.off
       else s DS3232_CONTROL &&& 0x1C) := rfl
  rw [e1, e2]
  exact sqw_facts (s DS3232_CONTROL) h m

/-- Witness for C5: on a control image with bit 2 set, a 1.024kHz write
reads back as 1.024kHz, an interrupt-mode write reads back as off, and the
unmodified image reads as off. -/
theorem C5_sqw_mode_roundtrip_witness :
    readSqwPinMode (writeSqwPinMode sqwImage Ds3232SqwPinMode.squareWave1kHz) = 0x08 ∧
    readSqwPinMode (writeSqwPinMode sqwImage Ds3232SqwPinMode.interrupt) = 0x1C ∧
    readSqwPinMode sqwImage = 0x1C := by
  have k1 := C5_sqw_mode_roundtrip sqwImage Ds3232SqwPinMode.squareWave1kHz (by decide)
  have k2 := C5_sqw_mode_roundtrip sqwImage Ds3232SqwPinMode.interrupt (by decide)
  refine ⟨?_, ?_, k1.2 (by decide)⟩
  · rw [k1.1]
    decide
  · rw [k2.1]
    decide

/-! ## C3: temperature decode

The claim (and the chip datasheet) take the first temperature byte as a
SIGNED integer. The code casts the `uint8_t` directly to float, an unsigned
interpretation, so every negative temperature is decoded wrongly; the
positive example of the claim does hold. -/

/-- C3 (code-bug evidence): on the byte pair (23, 0b01000000) the code
returns 23.25 exactly as the claim says; but on (0xFF, 0b11000000), the
chip's encoding of -0.25 degrees C, the code returns 255.75 because it
casts the unsigned first byte directly, while the claim's signed
interpretation yields -0.25. -/
theorem C3_getTemperature_unsigned_bug :
    getTemperature tempImagePos = 93 / 4 ∧
    temperatureClaimed tempImagePos = 93 / 4 ∧
    getTemperature tempImageNeg = 1023 / 4 ∧
    temperatureClaimed tempImageNeg = -1 / 4 ∧
    getTemperature tempImageNeg ≠ temperatureClaimed tempImageNeg := by
  refine ⟨?_, ?_, ?_, ?_, ?_⟩ <;>
    norm_num [getTemperature, temperatureClaimed, tempImagePos, tempImageNeg,
      read_register, DS3232_TEMPERATUREREG,
      (by decide : (64 : Nat) >>> 6 = 1), (by decide : (192 : Nat) >>> 6 = 3)]

/-! ## C2: the alarm-set precondition and the alarm register writes -/

lemma maskShift_le (m k j : Nat) : (m &&& k) <<< j ≤ k <<< j := by
  simp only [Nat.shiftLeft_eq]
  exact Nat.mul_le_mul_right _ Nat.and_le_right

lemma maskShift_lt (m k j : Nat) (h : k <<< j < 256) : (m &&& k) <<< j < 256 :=
  Nat.lt_of_le_of_lt (maskShift_le m k j) h

lemma or_lt_256 {x y : Nat} (hx : x < 256) (hy : y < 256) : x ||| y < 256 := by
  have hx8 : x < 2 ^ 8 := hx
  have hy8 : y < 2 ^ 8 := hy
  have h := Nat.or_lt_two_pow hx8 hy8
  exact h

lemma write_register_ne (s : RegFile) (r v a : Nat) (h : a ≠ r) :
    write_register s r v a = s a := if_neg h

lemma ctrl_or_facts : ∀ c < 256,
    ((c ||| 0x01) % 256 = c ||| 0x01) ∧
    (∀ i < 8, i ≠ 0 → Nat.testBit (c ||| 0x01) i = Nat.testBit c i) ∧
    ((c ||| 0x02) % 256 = c ||| 0x02) ∧
    (∀ i < 8, i ≠ 1 → Nat.testBit (c ||| 0x02) i = Nat.testBit c i) := by decide

/-- C2: when control-register bit 2 is clear, `setAlarm1` and `setAlarm2`
return false and leave the register file completely untouched; when it is
set they return true, write the documented BCD-plus-mask bytes at the
alarm-1 base (4 data bytes, addresses 0x07-0x0A) respectively the alarm-2
base (3 data bytes, addresses 0x0B-0x0D), set control bit 0 (A1IE)
respectively bit 1 (A2IE) while preserving every other control bit, and
touch no other register. -/
theorem C2_setAlarm_precondition (s : RegFile) (dt : DateTime) (m1 m2 : Nat)
    (h256 : s DS3232_CONTROL < 256)
    (hsec : dt.second ≤ 59) (hmin : dt.minute ≤ 59)
    (hhr : dt.hour ≤ 23) (hday : dt.day ≤ 31) :
    (s DS3232_CONTROL &&& 0x04 = 0 →
      setAlarm1 s dt m1 = (false, s) ∧ setAlarm2 s dt m2 = (false, s)) ∧
    (s DS3232_CONTROL &&& 0x04 ≠ 0 →
      (setAlarm1 s dt m1).1 = true ∧
      (setAlarm1 s dt m1).2 0x07 = bin2bcd dt.second ||| (m1 &&& 0x01) <<< 7 ∧
      (setAlarm1 s dt m1).2 0x08 = bin2bcd dt.minute ||| (m1 &&& 0x02) <<< 6 ∧
      (setAlarm1 s dt m1).2 0x09 = bin2bcd dt.hour ||| (m1 &&& 0x04) <<< 5 ∧
      (setAlarm1 s dt m1).2 0x0A =
        bin2bcd (if (m1 &&& 0x10) <<< 2 ≠ 0 then dowToDS3232 dt.dayOfTheWeek else dt.day)
          ||| (m1 &&& 0x08) <<< 4 ||| (m1 &&& 0x10) <<< 2 ∧
      (setAlarm1 s dt m1).2 DS3232_CONTROL = s DS3232_CONTROL ||| 0x01 ∧
      (∀ i < 8, i ≠ 0 → Nat.testBit ((setAlarm1 s dt m1).2 DS3232_CONTROL) i =
        Nat.testBit (s DS3232_CONTROL) i) ∧
      (∀ a, a ≠ 0x07 → a ≠ 0x08 → a ≠ 0x09 → a ≠ 0x0A → a ≠ DS3232_CONTROL →
        (setAlarm1 s dt m1).2 a = s a) ∧
      (setAlarm2 s dt m2).1 = true ∧
      (setAlarm2 s dt m2).2 0x0B = bin2bcd dt.minute ||| (m2 &&& 0x01) <<< 7 ∧
      (setAlarm2 s dt m2).2 0x0C = bin2bcd dt.hour ||| (m2 &&& 0x02) <<< 6 ∧
      (setAlarm2 s dt m2).2 0x0D =
        bin2bcd (if (m2 &&& 0x08) <<< 3 ≠ 0 then dowToDS3232 dt.dayOfTheWeek else dt.day)
          ||| (m2 &&& 0x04) <<< 5 ||| (m2 &&& 0x08) <<< 3 ∧
      (setAlarm2 s dt m2).2 DS3232_CONTROL = s DS3232_CONTROL ||| 0x02 ∧
      (∀ i < 8, i ≠ 1 → Nat.testBit ((setAlarm2 s dt m2).2 DS3232_CONTROL) i =
        Nat.testBit (s DS3232_CONTROL) i) ∧
      (∀ a, a ≠ 0x0B → a ≠ 0x0C → a ≠ 0x0D → a ≠ DS3232_CONTROL →
        (setAlarm2 s dt m2).2 a = s a)) := by
  have co := ctrl_or_facts (s DS3232_CONTROL) h256
  have hdaysel1 :
      (if (m1 &&& 0x10) <<< 2 ≠ 0 then dowToDS3232 dt.dayOfTheWeek else dt.day) < 100 := by
    split
    · have := dayOfTheWeek_le dt
      unfold dowToDS3232
      omega
    · omega
  have hdaysel2 :
      (if (m2 &&& 0x08) <<< 3 ≠ 0 then dowToDS3232 dt.dayOfTheWeek else dt.day) < 100 := by
    split
    · have := dayOfTheWeek_le dt
      unfold dowToDS3232
      omega
    · omega
  constructor
  · intro hc0
    constructor
    · simp only [setAlarm1, read_register]
      rw [if_pos hc0]
    · simp only [setAlarm2, read_register]
      rw [if_pos hc0]
  · intro hc
    have hA1 : setAlarm1 s dt m1 =
        (true, write_register
          (write_register
            (write_register
              (write_register
                (write_register s 7 (bin2bcd dt.second ||| (m1 &&& 0x01) <<< 7))
                8 (bin2bcd dt.minute ||| (m1 &&& 0x02) <<< 6))
              9 (bin2bcd dt.hour ||| (m1 &&& 0x04) <<< 5))
            10 (bin2bcd
                  (if (m1 &&& 0x10) <<< 2 ≠ 0 then dowToDS3232 dt.dayOfTheWeek else dt.day)
                ||| (m1 &&& 0x08) <<< 4 ||| (m1 &&& 0x10) <<< 2))
          DS3232_CONTROL (s DS3232_CONTROL ||| 0x01)) := by
      simp only [setAlarm1, read_register]
      rw [if_neg hc]
      rfl
    have hA2 : setAlarm2 s dt m2 =
        (true, write_register
          (write_register
            (write_register
              (write_register s 11 (bin2bcd dt.minute ||| (m2 &&& 0x01) <<< 7))
              12 (bin2bcd dt.hour ||| (m2 &&& 0x02) <<< 6))
            13 (bin2bcd
                  (if (m2 &&& 0x08) <<< 3 ≠ 0 then dowToDS3232 dt.dayOfTheWeek else dt.day)
                ||| (m2 &&& 0x04) <<< 5 ||| (m2 &&& 0x08) <<< 3))
          DS3232_CONTROL (s DS3232_CONTROL ||| 0x02)) := by
      simp only [setAlarm2, read_register]
      rw [if_neg hc]
      rfl
    refine ⟨by rw [hA1], ?_, ?_, ?_, ?_, ?_, ?_, ?_, by rw [hA2], ?_, ?_, ?_, ?_, ?_, ?_⟩
    · rw [hA1]
      exact Nat.mod_eq_of_lt
        (or_lt_256 (bin2bcd_lt _ (by omega)) (maskShift_lt _ _ _ (by decide)))
    · rw [hA1]
      exact Nat.mod_eq_of_lt
        (or_lt_256 (bin2bcd_lt _ (by omega)) (maskShift_lt _ _ _ (by decide)))
    · rw [hA1]
      exact Nat.mod_eq_of_lt
        (or_lt_256 (bin2bcd_lt _ (by omega)) (maskShift_lt _ _ _ (by decide)))
    · rw [hA1]
      exact Nat.mod_eq_of_lt
        (or_lt_256 (or_lt_256 (bin2bcd_lt _ hdaysel1) (maskShift_lt _ _ _ (by decide)))
          (maskShift_lt _ _ _ (by decide)))
    · rw [hA1]
      exact co.1
    · intro i hi hne
      rw [hA1]
      have e : (s DS3232_CONTROL ||| 0x01) % 256 = s DS3232_CONTROL ||| 0x01 := co.1
      show Nat.testBit ((s DS3232_CONTROL ||| 0x01) % 256) i = _
      rw [e]
      exact co.2.1 i hi hne
    · intro a h7 h8 h9 h10 h14
      rw [hA1]
      show write_register _ DS3232_CONTROL _ a = s a
      rw [write_register_ne _ _ _ _ h14, write_register_ne _ _ _ _ h10,
        write_register_ne _ _ _ _ h9, write_register_ne _ _ _ _ h8,
        write_register_ne _ _ _ _ h7]
    · rw [hA2]
      exact Nat.mod_eq_of_lt
        (or_lt_256 (bin2bcd_lt _ (by omega)) (maskShift_lt _ _ _ (by decide)))
    · rw [hA2]
      exact Nat.mod_eq_of_lt
        (or_lt_256 (bin2bcd_lt _ (by omega)) (maskShift_lt _ _ _ (by decide)))
    · rw [hA2]
      exact Nat.mod_eq_of_lt
        (or_lt_256 (or_lt_256 (bin2bcd_lt _ hdaysel2) (maskShift_lt _ _ _ (by decide)))
          (maskShift_lt _ _ _ (by decide)))
    · rw [hA2]
      exact co.2.2.1
    · intro i hi hne
      rw [hA2]
      have e : (s DS3232_CONTROL ||| 0x02) % 256 = s DS3232_CONTROL ||| 0x02 := co.2.2.1
      show Nat.testBit ((s DS3232_CONTROL ||| 0x02) % 256) i = _
      rw [e]
      exact co.2.2.2 i hi hne
    · intro a h11 h12 h13 h14
      rw [hA2]
      show write_register _ DS3232_CONTROL _ a = s a
      rw [write_register_ne _ _ _ _ h14, write_register_ne _ _ _ _ h13,
        write_register_ne _ _ _ _ h12, write_register_ne _ _ _ _ h11]

/-- Witness for C2: with control bit 2 clear both alarm setters return
false and change nothing; with it set they return true and set A1IE. -/
theorem C2_setAlarm_precondition_witness :
    setAlarm1 zeroImage sampleTime 0 = (false, zeroImage) ∧
    setAlarm2 zeroImage sampleTime 0 = (false, zeroImage) ∧
    (setAlarm1 alarmCtrlImage sampleTime 0).1 = true ∧
    (setAlarm1 alarmCtrlImage sampleTime 0).2 DS3232_CONTROL =
      alarmCtrlImage DS3232_CONTROL ||| 0x01 ∧
    (setAlarm2 alarmCtrlImage sampleTime 0).1 = true := by
  have k0 := C2_setAlarm_precondition zeroImage sampleTime 0 0
    (by decide) (by decide) (by decide) (by decide) (by decide)
  have k1 := C2_setAlarm_precondition alarmCtrlImage sampleTime 0 0
    (by decide) (by decide) (by decide) (by decide) (by decide)
  refine ⟨(k0.1 (by decide)).1, (k0.1 (by decide)).2, ?_, ?_, ?_⟩
  · exact (k1.2 (by decide)).1
  · exact (k1.2 (by decide)).2.2.2.2.2.1
  · exact (k1.2 (by decide)).2.2.2.2.2.2.2.2.1

end RTClib
